import Mathlib

/-!
# Verification of the Stoner-PythonCode core against its specification

A shallow embedding of the parts of `src/Stoner/Core.py` and
`src/Stoner/Image/stack.py` that the checked claims are about:

* the TDI header check of `DataFile._load` (Core.py lines 645-708);
* the auto-detecting dispatch loop of `DataFile.load` (Core.py lines 1420-1466);
* `DataFile.__deepcopy__` (Core.py lines 391-401) driving the `clone` property;
* the mask stack `DataFile._push_mask` / `DataFile._pop_mask` (Core.py lines 885-910);
* the boolean-list branch of `DataFile.del_column` (Core.py lines 1135-1141);
* the dictionary branch of `DataFile._init_single` (Core.py lines 268-275);
* the extension normalisation of `DataFile.save` (Core.py lines 1615-1619);
* `ImageStackMixin.__setter__` / `__inserter__` / `__deleter__` and
  `ImageStackMixin.__floordiv__` (stack.py lines 131-242).

Pure functions are translated as Lean functions; the mutable objects
(`DataFile`'s attribute dictionary, the image stack's parallel lists) are
carried as explicit state records.  Python exceptions become `Except`
values.  Numeric data is carried as `Int` where only structure matters and
as `ℚ` where the claim involves division.  Definitions whose Python source
is not under `src/` (the property/setas mixins, `Stoner/core/utils.py`) are
marked `Modelled from the spec:` in their doc strings.
-/

namespace Stoner

/-! ## Python string helpers -/

/-- Characters Python's `str.strip()` removes (ASCII whitespace). -/
def pySpace (c : Char) : Bool :=
  c = ' ' || c = '\t' || c = '\n' || c = '\r' || c = '\x0b' || c = '\x0c'

/-- Python `str.strip()`: drop leading and trailing whitespace. -/
def pyStrip (s : String) : String :=
  ⟨((s.data.dropWhile pySpace).reverse.dropWhile pySpace).reverse⟩

/-- Split a character list at every occurrence of the separator character. -/
def splitOnChar (c : Char) : List Char → List (List Char)
  | [] => [[]]
  | x :: xs =>
    match splitOnChar c xs, decide (x = c) with
    | r, true => [] :: r
    | [], false => [[x]]
    | h :: t, false => (x :: h) :: t

/-- Fields of one line of a tab-delimited file, as `csv.reader` with the
`tab_delimited` dialect yields them. -/
def tabFields (line : String) : List String :=
  (splitOnChar '\t' line.data).map (fun l => ⟨l⟩)

/-- First tab-separated field of a line (empty for an empty line). -/
def firstField (line : String) : String :=
  (tabFields line).headD ""

/-- Python exceptions the embedded code can signal. -/
inductive PyExc
  | stonerLoadError
  | valueError
  | typeError
  | indexError
  | keyError
deriving DecidableEq

/-! ## TDI header check (`DataFile._load`, Core.py lines 645-708) -/

/-- The two TDI format generations the header line announces. -/
inductive TDIFmt
  | v15
  | v10
deriving DecidableEq

/-- Header check of `DataFile._load` (Core.py lines 649-660): read the first
row of the file with the tab dialect, compare the stripped first cell with the
two literal markers and remember the stripped remaining cells as tentative
column headers; on any other first cell — and on any exception inside the
`try`, such as `StopIteration` from an empty file — raise `StonerLoadError`
("Not a TDI File"). -/
def tdiHeaderCheck (fileLines : List String) : Except PyExc (TDIFmt × List String) :=
  match fileLines with
  | [] => .error .stonerLoadError
  | line :: _ =>
    match tabFields line with
    | [] => .error .stonerLoadError
    | cell0 :: rest =>
      if pyStrip cell0 = "TDI Format 1.5" then .ok (.v15, rest.map pyStrip)
      else if pyStrip cell0 = "TDI Format=Text 1.0" then .ok (.v10, rest.map pyStrip)
      else .error .stonerLoadError

/-! ## Auto-detecting load dispatch (`DataFile.load`, Core.py lines 1420-1466) -/

/-- Tabular payload a format handler's `_load` produces: data matrix, ordered
metadata and column headers — the three things `copy_into` moves onto the
calling instance when a handler wins. -/
structure Payload where
  data : List (List Int)
  metadata : List (String × String)
  column_headers : List String
deriving DecidableEq

/-- Outcome of constructing a candidate subclass and running its `_load` on
the file: success with a payload, `StonerLoadError`, `UnicodeDecodeError`, or
any other exception (carried by name). -/
inductive ParseOutcome
  | ok (p : Payload)
  | loadError
  | unicodeDecodeError
  | raised (e : String)
deriving DecidableEq

/-- One registered `DataFile` subclass as the dispatch loop sees it: its class
name, whether the file's mime type is in `cls.mime_type` (the short-circuit
test, always true when python-magic is absent), and its parse outcome on the
file being loaded. -/
structure Handler where
  name : String
  mimeOk : Bool
  parse : ParseOutcome
deriving DecidableEq

/-- Ordered-dictionary update: overwrite the key in place when present,
append otherwise (Python `dict` assignment). -/
def dictSet {α : Type} (m : List (String × α)) (k : String) (v : α) : List (String × α) :=
  if m.any (fun kv => kv.1 = k) then m.map (fun kv => if kv.1 = k then (k, v) else kv)
  else m ++ [(k, v)]

/-- Result of `DataFile.load`: a winning handler's payload, the
`StonerUnrecognisedFormat` error naming the recognised subclasses, or a
propagated Python exception. -/
inductive LoadResult
  | loaded (loadedAs : String) (p : Payload)
  | unrecognisedFormat (recognised : List String)
  | exc (e : String)
deriving DecidableEq

/-- True when a load result is a propagated exception. -/
def LoadResult.isExc : LoadResult → Bool
  | .exc _ => true
  | _ => false

/-- The auto-detect loop of `DataFile.load` (Core.py lines 1420-1466),
returning the result together with the names of the handlers whose parse was
attempted, in order.  Per iteration: skip (without an attempt) on mime-type
mismatch; on success set `test["Loaded as"] = cls.__name__` and `break` (the
payload is then copied onto `self`); `continue` on `StonerLoadError` and on
`UnicodeDecodeError`; any other exception propagates.  When the loop
exhausts, `StonerUnrecognisedFormat` names every recognised subclass.
Modelled from the spec where it leans on code outside `src/`:
`subclasses(DataFile)` (Stoner/core/utils.py) yields the handlers in
ascending priority order — the input list is taken already ordered — and
`copy_into` copies the winner's matrix, metadata and column headers onto the
caller, here represented by the payload carried in the result. -/
def tryLoad (allNames : List String) : List Handler → LoadResult × List String
  | [] => (.unrecognisedFormat allNames, [])
  | h :: rest =>
    if h.mimeOk then
      match h.parse with
      | .ok p =>
        (.loaded h.name { p with metadata := dictSet p.metadata "Loaded as" h.name }, [h.name])
      | .loadError =>
        let r := tryLoad allNames rest
        (r.1, h.name :: r.2)
      | .unicodeDecodeError =>
        let r := tryLoad allNames rest
        (r.1, h.name :: r.2)
      | .raised e => (.exc e, [h.name])
    else tryLoad allNames rest

/-- `DataFile.load` with `auto_load=True`: try every registered handler. -/
def loadAuto (hs : List Handler) : LoadResult × List String :=
  tryLoad (hs.map Handler.name) hs

/-! ## Mask stack (`DataFile._push_mask` / `_pop_mask`, Core.py lines 885-910) -/

/-- A numpy mask as `DataFile` handles it: the scalar `False` sentinel or a
full boolean array. -/
inductive MaskVal
  | scalar (b : Bool)
  | array (m : List (List Bool))
deriving DecidableEq

/-- Mask state of one `DataFile`: the current mask of `self.data` plus the
`_masks` stack, initialised to `[False]` in `__new__` (Core.py line 161). -/
structure MaskState where
  mask : MaskVal
  masks : List MaskVal
deriving DecidableEq

/-- The state `DataFile.__new__` sets up: unmasked data, `[False]` sentinel. -/
def initMaskState : MaskState :=
  ⟨.scalar false, [.scalar false]⟩

/-- `DataFile._push_mask` (Core.py lines 885-899): append the current mask to
`_masks`, then clear the mask (argument `None`) or install the new one.
Modelled from the spec where it leans on code outside `src/`: the `mask`
property (Stoner/core/property.py) is given value semantics, the saved entry
being the mask value at push time. -/
def pushMask (newMask : Option MaskVal) (s : MaskState) : MaskState :=
  let saved := s.masks ++ [s.mask]
  match newMask with
  | none => { mask := .scalar false, masks := saved }
  | some m => { mask := m, masks := saved }

/-- `DataFile._pop_mask` (Core.py lines 901-910): `self.mask = False`, then
`self.mask = self._masks.pop()` (Python `list.pop` raises `IndexError` on an
empty list), then reinstate the `[False]` sentinel if the stack emptied. -/
def popMask (s : MaskState) : Except PyExc MaskState :=
  match s.masks.getLast? with
  | none => .error .indexError
  | some m =>
    let rest := s.masks.dropLast
    .ok { mask := m, masks := if rest.isEmpty then [.scalar false] else rest }

/-- Iterated `popMask`, propagating a raised `IndexError`. -/
def popMaskN : Nat → MaskState → Except PyExc MaskState
  | 0, s => .ok s
  | n + 1, s =>
    match popMask s with
    | .ok s' => popMaskN n s'
    | .error e => .error e

/-! ## Deep copy and clone independence (`DataFile.__deepcopy__`, Core.py lines 391-401)

The mutable attributes a `DataFile` carries in `self.__dict__` are modelled
as six independently addressed heap cells (data values, mask, metadata,
setas roles, column headers, pushed-mask stack); a `Store` is the heap, a
`DFRefs` the object holding one reference per attribute.  `__deepcopy__`
walks `self.__dict__` and rebinds every attribute of the fresh object to
`copy.deepcopy` of the original's value — here: a freshly allocated cell
holding a copy of the value.  (The per-attribute `except` fallback to
`copy.copy` never fires for these attributes: arrays, dictionaries and lists
deep-copy without raising.) -/

/-- A Python value one `DataFile` attribute cell can hold. -/
inductive PyObj
  | num (m : List (List Int))
  | boolmat (m : List (List Bool))
  | metad (m : List (String × String))
  | strs (l : List String)
  | chars (l : List Char)
  | maskStack (l : List MaskVal)
deriving DecidableEq

/-- The heap: allocated cells `0, …, size - 1` and their contents. -/
structure Store where
  size : Nat
  val : Nat → PyObj

/-- Overwrite one heap cell. -/
def Store.write (s : Store) (r : Nat) (v : PyObj) : Store :=
  ⟨s.size, fun i => if i = r then v else s.val i⟩

/-- The mutable attributes of a `DataFile`. -/
inductive DFField
  | dataF
  | maskF
  | metaF
  | setasF
  | headersF
  | masksF
deriving DecidableEq

/-- A `DataFile` object: one heap reference per mutable attribute. -/
structure DFRefs where
  dataRef : Nat
  maskRef : Nat
  metaRef : Nat
  setasRef : Nat
  headersRef : Nat
  masksRef : Nat
deriving DecidableEq

/-- The heap cell an attribute of the object lives in. -/
def DFRefs.ref (d : DFRefs) : DFField → Nat
  | .dataF => d.dataRef
  | .maskF => d.maskRef
  | .metaF => d.metaRef
  | .setasF => d.setasRef
  | .headersF => d.headersRef
  | .masksF => d.masksRef

/-- Well-formed object: every attribute reference points at an allocated cell. -/
@[reducible]
def DFRefs.wf (d : DFRefs) (s : Store) : Prop :=
  d.dataRef < s.size ∧ d.maskRef < s.size ∧ d.metaRef < s.size ∧
    d.setasRef < s.size ∧ d.headersRef < s.size ∧ d.masksRef < s.size

/-- `DataFile.__deepcopy__` (Core.py lines 391-401): a fresh object of the
same class whose every attribute is `copy.deepcopy` of the original's — six
freshly allocated cells holding copies of the original cells' values.
Modelled from the spec where it leans on code outside `src/`: the `clone`
property (Stoner/core/property.py) is `copy.deepcopy(self)`, which Python
routes to this `__deepcopy__`. -/
def deepcopyDF (d : DFRefs) (s : Store) : DFRefs × Store :=
  (⟨s.size, s.size + 1, s.size + 2, s.size + 3, s.size + 4, s.size + 5⟩,
   ⟨s.size + 6, fun i =>
     if i = s.size then s.val d.dataRef
     else if i = s.size + 1 then s.val d.maskRef
     else if i = s.size + 2 then s.val d.metaRef
     else if i = s.size + 3 then s.val d.setasRef
     else if i = s.size + 4 then s.val d.headersRef
     else if i = s.size + 5 then s.val d.masksRef
     else s.val i⟩)

/-- Observable state of a `DataFile`: the values of its six attributes. -/
def readDF (d : DFRefs) (s : Store) : PyObj × PyObj × PyObj × PyObj × PyObj × PyObj :=
  (s.val d.dataRef, s.val d.maskRef, s.val d.metaRef,
   s.val d.setasRef, s.val d.headersRef, s.val d.masksRef)

/-- Mutate one attribute of an object in place (assignment to `e.data`,
`e.mask`, `e.metadata`, `e.setas`, `e.column_headers` or the mask stack). -/
def mutateDF (d : DFRefs) (f : DFField) (v : PyObj) (s : Store) : Store :=
  s.write (d.ref f) v

/-- Fixture object for the clone witness: attributes in cells 0-5. -/
def c3obj : DFRefs :=
  ⟨0, 1, 2, 3, 4, 5⟩

/-- Fixture heap for the clone witness: six allocated cells. -/
def c3heap : Store :=
  ⟨6, fun i =>
    if i = 0 then .num [[1, 2], [3, 4]]
    else if i = 1 then .boolmat [[false, true], [false, false]]
    else if i = 2 then .metad [("Loaded as", "DataFile")]
    else if i = 3 then .chars ['x', 'y']
    else if i = 4 then .strs ["a", "b"]
    else .maskStack [.scalar false]⟩

/-! ## Boolean-list column deletion (`DataFile.del_column`, Core.py lines 1135-1141) -/

/-- Numpy boolean-mask indexing along an axis: keep the entries whose
parallel flag is `True`. -/
def boolSelect {α : Type} : List Bool → List α → List α
  | _, [] => []
  | [], _ :: _ => []
  | b :: bs, x :: xs => if b then x :: boolSelect bs xs else boolSelect bs xs

/-- The columns of a `DataFile` as `del_column` touches them: row-major data,
setas role per column, header per column. -/
structure DFCols where
  data : List (List Int)
  setas : List Char
  column_headers : List String
deriving DecidableEq

/-- The boolean-iterable branch of `DataFile.del_column` (Core.py lines
1135-1141): `col = ~np.array(col)`, then index data, setas and headers by the
negated mask — keeping the columns whose original flag is `False`. -/
def delColumnBools (d : DFCols) (flags : List Bool) : DFCols :=
  let col := flags.map (fun b => !b)
  { data := d.data.map (boolSelect col),
    setas := boolSelect col d.setas,
    column_headers := boolSelect col d.column_headers }

/-- Modelled from the spec: the behaviour `del_column`'s own docstring
(Core.py line 1102, "all columns whose elements are False are deleted") and
the spec describe — delete the columns flagged `False`, keep those flagged
`True`. -/
def delColumnBoolsDoc (d : DFCols) (flags : List Bool) : DFCols :=
  { data := d.data.map (boolSelect flags),
    setas := boolSelect flags d.setas,
    column_headers := boolSelect flags d.column_headers }

/-- Fixture for the `del_column` divergence: two columns `a` (role x) and
`b` (role y), one data row. -/
def c7df : DFCols :=
  ⟨[[10, 20]], ['x', 'y'], ["a", "b"]⟩

/-! ## Construction from a dictionary (`DataFile._init_single`, Core.py lines 268-275) -/

/-- `np.column_stack`: the k-th row of the result collects the k-th entry of
every column (the caller guarantees equal lengths). -/
def columnStack (cols : List (List Int)) : List (List Int) :=
  match cols with
  | [] => []
  | c0 :: _ => (List.range c0.length).map (fun i => cols.map (fun c => c.getD i 0))

/-- What the dictionary branch of `_init_single` populates. -/
structure DFInit where
  data : List (List Int)
  column_headers : List String
deriving DecidableEq

/-- The dictionary branch of `DataFile._init_single` (Core.py lines 268-275):
when every key is a string and every value a 1-D array of one common length,
`self.data = np.column_stack(tuple(arg.values()))` and
`self.column_headers = list(arg.keys())`.  The ordered dictionary is carried
as a list of key/value pairs in insertion order. -/
def initFromDict (entries : List (String × List Int)) : DFInit :=
  { data := columnStack (entries.map Prod.snd),
    column_headers := entries.map Prod.fst }

/-- Shape `(rows, columns)` of the data matrix. -/
def DFInit.shape (d : DFInit) : Nat × Nat :=
  (d.data.length, (d.data.headD []).length)

/-- Modelled from the spec: the setas machinery (Stoner/core/setas.py, not
under `src/`) derives `xcol` as the first column holding role `x`. -/
def xcolOf (setas : List Char) : Option Nat :=
  ((List.range setas.length).filter (fun i => setas.getD i '.' = 'x')).head?

/-- Modelled from the spec: the setas machinery (Stoner/core/setas.py, not
under `src/`) derives `ycol` as the list of columns holding role `y`. -/
def ycolOf (setas : List Char) : List Nat :=
  (List.range setas.length).filter (fun i => setas.getD i '.' = 'y')

/-! ## ImageStack storage (`ImageStackMixin`, stack.py lines 24-242) -/

/-- Per-page metadata (a `typeHintedDict`), kept abstract as ordered
key/value pairs. -/
abbrev Meta := List (String × String)

/-- The 3-D masked-array buffer `_stack`: shape `(rows, cols, pages)` and
contents (out-of-range reads are irrelevant and return the zero fill). -/
structure Buf3 where
  rows : Nat
  cols : Nat
  pages : Nat
  val : Nat → Nat → Nat → ℚ

/-- An all-zero buffer. -/
def Buf3.zeros (r c p : Nat) : Buf3 :=
  ⟨r, c, p, fun _ _ _ => 0⟩

/-- `np.atleast_3d(np.ma.MaskedArray([]))`, the buffer `__init__` starts
with: shape `(1, 0, 1)`. -/
def emptyStackBuf : Buf3 :=
  Buf3.zeros 1 0 1

/-- `ImageStackMixin._resize_stack` (stack.py lines 261-273): no-op when the
shape already matches, otherwise allocate zeros of the new shape and copy the
overlapping sub-region. -/
def Buf3.resize (b : Buf3) (nr nc npg : Nat) : Buf3 :=
  if b.rows = nr ∧ b.cols = nc ∧ b.pages = npg then b
  else
    let r := min b.rows nr
    let c := min b.cols nc
    let p := min b.pages npg
    ⟨nr, nc, npg, fun i j k => if i < r ∧ j < c ∧ k < p then b.val i j k else 0⟩

/-- `np.insert(stack, ix, zeros, axis=2)`: splice one zero page in at
position `ix`. -/
def Buf3.insertPage (b : Buf3) (ix : Nat) : Buf3 :=
  ⟨b.rows, b.cols, b.pages + 1, fun i j k =>
    if k < ix then b.val i j k else if k = ix then 0 else b.val i j (k - 1)⟩

/-- `stack[:r, :c, idx] = value`: overwrite the top-left `r × c` corner of
one page. -/
def Buf3.writePage (b : Buf3) (idx r c : Nat) (img : Nat → Nat → ℚ) : Buf3 :=
  ⟨b.rows, b.cols, b.pages, fun i j k =>
    if k = idx ∧ i < r ∧ j < c then img i j else b.val i j k⟩

/-- `np.delete(stack, idx, axis=2)`: drop one page, shifting the ones above
it down. -/
def Buf3.deletePage (b : Buf3) (idx : Nat) : Buf3 :=
  ⟨b.rows, b.cols, b.pages - 1, fun i j k =>
    if k < idx then b.val i j k else b.val i j (k + 1)⟩

/-- One 2-D image value handed to the stack: shape, pixels, metadata. -/
structure Img where
  rows : Nat
  cols : Nat
  val : Nat → Nat → ℚ
  meta : Meta

/-- The parallel state of an `ImageStackMixin`: `_names`, `_sizes`,
`_metadata` (ordered dictionary) and the 3-D buffer `_stack`. -/
structure ImgStack where
  names : List String
  sizes : List (Nat × Nat)
  metadata : List (String × Meta)
  stack : Buf3

/-- The freshly initialised stack (stack.py lines 32-35). -/
def emptyImgStack : ImgStack :=
  ⟨[], [], [], emptyStackBuf⟩

/-- `ImageStackMixin.max_size` (stack.py lines 289-294): largest recorded row
and column counts, `(0, 0)` when no page is recorded. -/
def ImgStack.maxSize (s : ImgStack) : Nat × Nat :=
  if s.sizes.isEmpty then (0, 0)
  else ((s.sizes.map Prod.fst).foldr max 0, (s.sizes.map Prod.snd).foldr max 0)

/-- Ordered-dictionary deletion (`del self._metadata[name]`). -/
def dictDel {α : Type} (m : List (String × α)) (k : String) : List (String × α) :=
  m.filter (fun kv => kv.1 ≠ k)

/-- `ImageStackMixin.__inserter__` (stack.py lines 177-194), statement by
statement: insert the name, store the metadata, insert the recorded size,
resize the buffer to `max_size + (len(_names),)` — note `_names` already
holds the new entry — then `np.insert` one further zero page at `ix` and
write the image into its top-left corner.  (The dtype juggling of lines
187-191 selects the numpy dtype and is not modelled.) -/
def inserter (s : ImgStack) (ix : Nat) (nm : String) (v : Img) : ImgStack :=
  let names := s.names.insertIdx ix nm
  let metadata := dictSet s.metadata nm v.meta
  let sizes := s.sizes.insertIdx ix (v.rows, v.cols)
  let s1 : ImgStack := ⟨names, sizes, metadata, s.stack⟩
  let ms := s1.maxSize
  let b1 := s.stack.resize ms.1 ms.2 names.length
  let b2 := b1.insertPage ix
  let b3 := b2.writePage ix v.rows v.cols v.val
  ⟨names, sizes, metadata, b3⟩

/-- The append path of `ImageStackMixin.__setter__` (stack.py lines 154-160):
a name the stack does not know (or `force_insert`) goes to
`__inserter__(len(self), name, value)`; `len` of a `baseFolder` counts
`__names__()`, the metadata keys. -/
def setterNew (s : ImgStack) (nm : String) (v : Img) : ImgStack :=
  inserter s s.metadata.length nm v

/-- The overwrite path of `ImageStackMixin.__setter__` (stack.py lines
161-175): update the recorded size at `idx` and the metadata under the name,
resize the buffer to `max_size + (len(_sizes),)` and overwrite the page's
top-left corner. -/
def setterExisting (s : ImgStack) (idx : Nat) (nm : String) (v : Img) : ImgStack :=
  let sizes := s.sizes.set idx (v.rows, v.cols)
  let metadata := dictSet s.metadata nm v.meta
  let s1 : ImgStack := ⟨s.names, sizes, metadata, s.stack⟩
  let ms := s1.maxSize
  let b1 := s.stack.resize ms.1 ms.2 sizes.length
  let b2 := b1.writePage idx v.rows v.cols v.val
  ⟨s.names, sizes, metadata, b2⟩

/-- `ImageStackMixin.__deleter__` (stack.py lines 196-211) called with an
integer index: `__lookup__` bounds-checks and returns it, then name,
metadata entry, buffer page, names entry and sizes row are all removed at
that index (`np.delete(self._sizes, ix, axis=0)` receives the same
integer). -/
def deleterIdx (s : ImgStack) (idx : Nat) : ImgStack :=
  let nm := (s.metadata.map Prod.fst).getD idx ""
  ⟨s.names.eraseIdx idx, s.sizes.eraseIdx idx, dictDel s.metadata nm,
    s.stack.deletePage idx⟩

/-- `ImageStackMixin.__deleter__` (stack.py lines 196-211) called with a page
name: `__lookup__` resolves the name to `idx` through the metadata keys, the
metadata entry, buffer page and names entry are removed at `idx` — but the
final `np.delete(self._sizes, ix, axis=0)` is passed the raw string `ix`,
which numpy rejects, so an `IndexError` escapes after the first three
structures were already mutated.  The error value carries that partially
mutated state. -/
def deleterName (s : ImgStack) (nm : String) : Except (PyExc × ImgStack) ImgStack :=
  match (s.metadata.map Prod.fst).findIdx? (fun k => k = nm) with
  | none => .error (.keyError, s)
  | some idx =>
    let key := (s.metadata.map Prod.fst).getD idx ""
    let metadata := dictDel s.metadata key
    let b := s.stack.deletePage idx
    let names := s.names.eraseIdx idx
    .error (.indexError, ⟨names, s.sizes, metadata, b⟩)

/-- The state an `Except`-valued stack operation leaves behind, whether it
returned or raised. -/
def stackStateOf (r : Except (PyExc × ImgStack) ImgStack) : ImgStack :=
  match r with
  | .ok s => s
  | .error (_, s) => s

/-- True when the operation raised `IndexError`. -/
def raisedIndexError (r : Except (PyExc × ImgStack) ImgStack) : Bool :=
  match r with
  | .error (.indexError, _) => true
  | _ => false

/-- Fixture 2×2 page for the ImageStack divergence. -/
def c6img : Img :=
  ⟨2, 2, fun i j => (i * 2 + j : ℚ), [("Loaded from", "img.png")]⟩

/-! ## XMCD ratio (`ImageStackMixin.__floordiv__`, stack.py lines 226-242) -/

/-- A numpy numeric kind: floating, signed integer, unsigned integer. -/
inductive NumKind
  | f
  | i
  | u
deriving DecidableEq

/-- A numpy dtype: kind and bit width. -/
structure Dtype where
  kind : NumKind
  bits : Nat
deriving DecidableEq

/-- Largest representable value of a dtype, the normalisation constant of
`convert` (1 for floats, `2^bits - 1` unsigned, `2^(bits-1) - 1` signed). -/
def Dtype.maxVal : Dtype → ℚ
  | ⟨.f, _⟩ => 1
  | ⟨.u, b⟩ => (2 : ℚ) ^ b - 1
  | ⟨.i, b⟩ => (2 : ℚ) ^ (b - 1) - 1

/-- An image stack as `__floordiv__` sees it: the buffer and its dtype. -/
structure StackBuf where
  dtype : Dtype
  buf : Buf3

/-- Conversion of an integer stack to float.  Modelled from the spec and the
`convert` docstring in `src` (stack.py lines 305-347): `imagefuncs.convert`
itself is not under `src/`; with `normalise=True` integer data is divided by
the dtype's maximum allowed value. -/
def convertFloat (s : StackBuf) : StackBuf :=
  if s.dtype.kind = .f then s
  else
    ⟨⟨.f, 64⟩, ⟨s.buf.rows, s.buf.cols, s.buf.pages,
      fun i j k => s.buf.val i j k / s.dtype.maxVal⟩⟩

/-- `ImageStackMixin.__floordiv__` (stack.py lines 226-242): `ValueError`
whenever the two stacks' dtypes differ; otherwise, when the dtype kind is not
floating, both sides are cloned and converted to float; the result is a clone
whose buffer is `(A - B) / (A + B)` elementwise.  Both operands are left
untouched (the ratio is written into the clone). -/
def floordivStacks (a b : StackBuf) : Except PyExc StackBuf :=
  if a.dtype ≠ b.dtype then .error .valueError
  else
    let r := if a.dtype.kind ≠ .f then convertFloat a else a
    let o := if a.dtype.kind ≠ .f then convertFloat b else b
    .ok ⟨r.dtype, ⟨r.buf.rows, r.buf.cols, r.buf.pages, fun i j k =>
      (r.buf.val i j k - o.buf.val i j k) / (r.buf.val i j k + o.buf.val i j k)⟩⟩

/-- Fixture stack of unsigned 8-bit data. -/
def c9u8 : StackBuf :=
  ⟨⟨.u, 8⟩, ⟨2, 2, 1, fun _ _ _ => 3⟩⟩

/-- Fixture stack of signed 16-bit data, same shape. -/
def c9i16 : StackBuf :=
  ⟨⟨.i, 16⟩, ⟨2, 2, 1, fun _ _ _ => 5⟩⟩

/-- Fixture stack of float data. -/
def c9fA : StackBuf :=
  ⟨⟨.f, 64⟩, ⟨1, 1, 1, fun _ _ _ => 3⟩⟩

/-- Second fixture stack of float data, same dtype. -/
def c9fB : StackBuf :=
  ⟨⟨.f, 64⟩, ⟨1, 1, 1, fun _ _ _ => 1⟩⟩

/-! ## Save-filename normalisation (`DataFile.save`, Core.py lines 1615-1619) -/

/-- Index of the last occurrence of a character, as Python `str.rfind`
(`none` when absent). -/
def rfindIdx (c : Char) : List Char → Option Nat
  | [] => none
  | x :: xs =>
    match rfindIdx c xs with
    | some i => some (i + 1)
    | none => if x = c then some 0 else none

/-- `os.path.splitext` (CPython `genericpath._splitext` with separator `/`):
split at the last dot, unless every character strictly between the last path
separator and that dot is itself a dot (leading dots of the basename do not
start an extension). -/
def pySplitExt (p : List Char) : List Char × List Char :=
  let sepIdx : Int := match rfindIdx '/' p with | some i => (i : Int) | none => -1
  match rfindIdx '.' p with
  | none => (p, [])
  | some d =>
    if sepIdx < (d : Int) ∧
        ∃ k ∈ List.range p.length, sepIdx < (k : Int) ∧ (k : Int) < (d : Int) ∧
          p.getD k ' ' ≠ '.' then
      (p.take d, p.drop d)
    else (p, [])

/-- `DataFile._patterns` (Core.py line 145), exposed by the `patterns`
property the `save` code reads.  Modelled from the spec insofar as the
property itself lives in Stoner/core/property.py, outside `src/`. -/
def dfPatterns : List (List Char) :=
  [['*', '.', 't', 'x', 't'], ['*', '.', 't', 'd', 'i']]

/-- The extension normalisation of `DataFile.save` (Core.py lines 1615-1619):
`filename, ext = os.path.splitext(filename)`; if `"*." + ext` is not one of
the patterns — `ext` still carries its leading dot here — fall back to
`patterns[0][2:]`, i.e. `txt`; reassemble `filename + "." + ext`. -/
def saveFilename (p : List Char) : List Char :=
  let be := pySplitExt p
  let ext := if ('*' :: '.' :: be.2) ∈ dfPatterns then be.2 else ['t', 'x', 't']
  be.1 ++ '.' :: ext

/-- Fixture payload for the load-dispatch witness. -/
def c2payload : Payload :=
  ⟨[[1, 2], [3, 4]], [("Temp", "300")], ["V", "I"]⟩

/-! ## Theorems -/

/-- Helper: a handler whose parse raises `StonerLoadError` or
`UnicodeDecodeError` is passed over, the loop carrying on with the rest. -/
theorem tryLoad_cons_skip (allNames : List String) (g : Handler) (rest : List Handler)
    (hm : g.mimeOk = true)
    (hp : g.parse = .loadError ∨ g.parse = .unicodeDecodeError) :
    tryLoad allNames (g :: rest) =
      ((tryLoad allNames rest).1, g.name :: (tryLoad allNames rest).2) := by
  rcases hp with hp | hp <;> simp [tryLoad, hm, hp]

/-- Claim C4 (counterexample): the header check accepts a first line whose
first tab-separated field is `" TDI Format 1.5"` — not equal to either
literal marker — because the code strips the field before comparing. -/
theorem claim_C4_counterexample :
    (∃ v, tdiHeaderCheck [" TDI Format 1.5\tVoltage"] = .ok v) ∧
    firstField " TDI Format 1.5\tVoltage" ≠ "TDI Format 1.5" ∧
    firstField " TDI Format 1.5\tVoltage" ≠ "TDI Format=Text 1.0" :=
  ⟨⟨(.v15, ["Voltage"]), rfl⟩, by decide, by decide⟩

/-- Claim C4 (amended): the fallback TDI parser's header check succeeds if
and only if the *stripped* first tab-separated field of the first line equals
`"TDI Format 1.5"` or `"TDI Format=Text 1.0"`; in every other case —
including an empty file — it fails with `StonerLoadError`, so auto-detection
can try the next handler. -/
theorem claim_C4_amended : ∀ (line : String) (rest : List String),
    ((∃ v, tdiHeaderCheck (line :: rest) = .ok v) ↔
      pyStrip (firstField line) = "TDI Format 1.5" ∨
        pyStrip (firstField line) = "TDI Format=Text 1.0") ∧
    ((∃ v, tdiHeaderCheck (line :: rest) = .ok v) ∨
      tdiHeaderCheck (line :: rest) = .error .stonerLoadError) ∧
    tdiHeaderCheck [] = .error .stonerLoadError := by
  intro line rest
  cases htf : tabFields line with
  | nil =>
    have hf : firstField line = "" := by simp [firstField, htf]
    refine ⟨iff_of_false ?_ ?_, Or.inr ?_, rfl⟩
    · simp [tdiHeaderCheck, htf]
    · rw [hf]; decide
    · simp [tdiHeaderCheck, htf]
  | cons c0 cs =>
    have hf : firstField line = c0 := by simp [firstField, htf]
    by_cases h1 : pyStrip c0 = "TDI Format 1.5"
    · refine ⟨iff_of_true ⟨(.v15, cs.map pyStrip), ?_⟩ ?_,
        Or.inl ⟨(.v15, cs.map pyStrip), ?_⟩, rfl⟩
      · simp [tdiHeaderCheck, htf, h1]
      · rw [hf]; exact Or.inl h1
      · simp [tdiHeaderCheck, htf, h1]
    · by_cases h2 : pyStrip c0 = "TDI Format=Text 1.0"
      · refine ⟨iff_of_true ⟨(.v10, cs.map pyStrip), ?_⟩ ?_,
          Or.inl ⟨(.v10, cs.map pyStrip), ?_⟩, rfl⟩
        · simp [tdiHeaderCheck, htf, h1, h2]
        · rw [hf]; exact Or.inr h2
        · simp [tdiHeaderCheck, htf, h1, h2]
      · refine ⟨iff_of_false ?_ ?_, Or.inr ?_, rfl⟩
        · simp [tdiHeaderCheck, htf, h1, h2]
        · rw [hf]; simp [h1, h2]
        · simp [tdiHeaderCheck, htf, h1, h2]

/-- Claim C1 (counterexample): a parse attempt that raises
`UnicodeDecodeError` — an exception other than `LoadError` — does not abort
the load: the dispatch loop catches it, moves on, and here ends in
`StonerUnrecognisedFormat` rather than propagating the exception. -/
theorem claim_C1_counterexample :
    loadAuto [⟨"BadEncoding", true, .unicodeDecodeError⟩] =
      (.unrecognisedFormat ["BadEncoding"], ["BadEncoding"]) ∧
    (loadAuto [⟨"BadEncoding", true, .unicodeDecodeError⟩]).1.isExc = false :=
  ⟨rfl, rfl⟩

/-- Claim C1 (amended): during auto-detecting load, a candidate whose parse
raises `LoadError` *or* `UnicodeDecodeError` is passed over and the next
candidate tried; any other exception raised by a parse attempt is not caught
and the whole load aborts by propagating it to the caller. -/
theorem claim_C1_amended : ∀ (allNames : List String) (pre : List Handler) (h : Handler)
    (post : List Handler) (e : String),
    (∀ g ∈ pre, g.mimeOk = true → g.parse = .loadError ∨ g.parse = .unicodeDecodeError) →
    h.mimeOk = true → h.parse = .raised e →
    (tryLoad allNames (pre ++ h :: post)).1 = .exc e := by
  intro allNames pre h post e
  induction pre with
  | nil =>
    intro _ hm hp
    simp [tryLoad, hm, hp]
  | cons g pre' ih =>
    intro hpre hm hp
    by_cases hgm : g.mimeOk = true
    · have hgp := hpre g (List.mem_cons_self g pre') hgm
      rw [List.cons_append, tryLoad_cons_skip allNames g (pre' ++ h :: post) hgm hgp]
      exact ih (fun g' hg' => hpre g' (List.mem_cons_of_mem g hg')) hm hp
    · rw [List.cons_append]
      have : tryLoad allNames (g :: (pre' ++ h :: post)) =
          tryLoad allNames (pre' ++ h :: post) := by
        simp [tryLoad, hgm]
      rw [this]
      exact ih (fun g' hg' => hpre g' (List.mem_cons_of_mem g hg')) hm hp

/-- Claim C1 (witness): with one recognised-but-wrong handler in front, a
handler raising `OSError` makes the whole load end in that exception. -/
theorem claim_C1_witness :
    (tryLoad ["TDIFile", "CSVFile"]
      ([⟨"TDIFile", true, .loadError⟩] ++ ⟨"CSVFile", true, .raised "OSError"⟩ :: [])).1 =
      .exc "OSError" :=
  claim_C1_amended ["TDIFile", "CSVFile"] [⟨"TDIFile", true, .loadError⟩]
    ⟨"CSVFile", true, .raised "OSError"⟩ [] "OSError" (by decide) rfl rfl

/-- Helper: handlers that fail with `LoadError` in front of a succeeding one
are attempted and passed over; the first success wins, records "Loaded as"
and stops the iteration (the result never consults the handlers after it). -/
theorem tryLoad_first_success (allNames : List String) (h : Handler) (post : List Handler)
    (p : Payload) : ∀ pre : List Handler,
    (∀ g ∈ pre, g.mimeOk = true → g.parse = .loadError) → h.mimeOk = true →
    h.parse = .ok p →
    tryLoad allNames (pre ++ h :: post) =
      (.loaded h.name { p with metadata := dictSet p.metadata "Loaded as" h.name },
       (pre.filter (fun g => g.mimeOk)).map Handler.name ++ [h.name]) := by
  intro pre
  induction pre with
  | nil =>
    intro _ hm hp
    simp [tryLoad, hm, hp]
  | cons g pre' ih =>
    intro hpre hm hp
    by_cases hgm : g.mimeOk = true
    · have hgp := hpre g (List.mem_cons_self g pre') hgm
      rw [List.cons_append,
        tryLoad_cons_skip allNames g (pre' ++ h :: post) hgm (Or.inl hgp),
        ih (fun g' hg' => hpre g' (List.mem_cons_of_mem g hg')) hm hp]
      simp [List.filter_cons, hgm]
    · rw [List.cons_append]
      have hskip : tryLoad allNames (g :: (pre' ++ h :: post)) =
          tryLoad allNames (pre' ++ h :: post) := by
        simp [tryLoad, hgm]
      rw [hskip, ih (fun g' hg' => hpre g' (List.mem_cons_of_mem g hg')) hm hp]
      simp [List.filter_cons, hgm]

/-- Helper: when every attempted handler fails with `LoadError` the loop
exhausts and raises `StonerUnrecognisedFormat` naming the recognised
handlers. -/
theorem tryLoad_exhausts (allNames : List String) : ∀ hs : List Handler,
    (∀ g ∈ hs, g.mimeOk = true → g.parse = .loadError) →
    (tryLoad allNames hs).1 = .unrecognisedFormat allNames := by
  intro hs
  induction hs with
  | nil => intro _; rfl
  | cons g rest ih =>
    intro hall
    by_cases hgm : g.mimeOk = true
    · rw [tryLoad_cons_skip allNames g rest hgm (Or.inl (hall g (List.mem_cons_self g rest) hgm))]
      exact ih (fun g' hg' => hall g' (List.mem_cons_of_mem g hg'))
    · have hskip : tryLoad allNames (g :: rest) = tryLoad allNames rest := by
        simp [tryLoad, hgm]
      rw [hskip]
      exact ih (fun g' hg' => hall g' (List.mem_cons_of_mem g hg'))

/-- Claim C2: the first handler whose parse succeeds wins — its payload
(matrix, metadata, column headers) is what gets copied onto the calling
instance, with metadata key "Loaded as" set to the handler's class name — and
the handlers after it are never attempted (the result and the attempted list
do not depend on `post`); if every handler raises `LoadError`, the load fails
with `StonerUnrecognisedFormat` naming the recognised handlers. -/
theorem claim_C2_theorem :
    (∀ (pre : List Handler) (h : Handler) (post : List Handler) (p : Payload),
      (∀ g ∈ pre, g.mimeOk = true → g.parse = .loadError) → h.mimeOk = true →
        h.parse = .ok p →
        loadAuto (pre ++ h :: post) =
          (.loaded h.name { p with metadata := dictSet p.metadata "Loaded as" h.name },
           (pre.filter (fun g => g.mimeOk)).map Handler.name ++ [h.name])) ∧
    (∀ hs : List Handler, (∀ g ∈ hs, g.mimeOk = true → g.parse = .loadError) →
      (loadAuto hs).1 = .unrecognisedFormat (hs.map Handler.name)) :=
  ⟨fun pre h post p hpre hm hp =>
    tryLoad_first_success ((pre ++ h :: post).map Handler.name) h post p pre hpre hm hp,
   fun hs hall => tryLoad_exhausts (hs.map Handler.name) hs hall⟩

/-- Claim C2 (witness): two handlers, the first failing with `LoadError`, the
second succeeding: both are attempted in order, the second's payload wins
with "Loaded as" recorded; and a lone failing handler ends in
`StonerUnrecognisedFormat` naming it. -/
theorem claim_C2_witness :
    loadAuto ([⟨"TDIFile", true, .loadError⟩] ++ ⟨"CSVFile", true, .ok c2payload⟩ :: []) =
      (.loaded "CSVFile"
        { c2payload with metadata := dictSet c2payload.metadata "Loaded as" "CSVFile" },
       ["TDIFile", "CSVFile"]) ∧
    (loadAuto [⟨"TDIFile", true, .loadError⟩]).1 = .unrecognisedFormat ["TDIFile"] :=
  ⟨claim_C2_theorem.1 [⟨"TDIFile", true, .loadError⟩] ⟨"CSVFile", true, .ok c2payload⟩ []
      c2payload (by decide) rfl rfl,
   claim_C2_theorem.2 [⟨"TDIFile", true, .loadError⟩] (by decide)⟩

/-- Helper: popping a non-empty mask stack succeeds and leaves it non-empty
(either the remaining entries or the reinstated sentinel). -/
theorem popMask_ok (s : MaskState) (h : s.masks ≠ []) :
    ∃ s', popMask s = .ok s' ∧ s'.masks ≠ [] := by
  cases hm : s.masks.getLast? with
  | none => exact absurd (List.getLast?_eq_none_iff.mp hm) h
  | some m =>
    by_cases he : s.masks.dropLast.isEmpty
    · exact ⟨⟨m, [.scalar false]⟩, by simp [popMask, hm, he], by simp⟩
    · refine ⟨⟨m, s.masks.dropLast⟩, by simp [popMask, hm, he], ?_⟩
      simpa [List.isEmpty_iff] using he

/-- Helper: any number of pops from a state satisfying the sentinel invariant
succeeds and preserves the invariant. -/
theorem popMaskN_ok (n : Nat) : ∀ s : MaskState, s.masks ≠ [] →
    ∃ s', popMaskN n s = .ok s' ∧ s'.masks ≠ [] := by
  induction n with
  | zero => exact fun s h => ⟨s, rfl, h⟩
  | succ k ih =>
    intro s h
    obtain ⟨s1, h1, h1ne⟩ := popMask_ok s h
    obtain ⟨s', h', h'ne⟩ := ih s1 h1ne
    exact ⟨s', by simp [popMaskN, h1, h'], h'ne⟩

/-- Claim C5: for every mask state whose stack satisfies the sentinel
invariant (non-empty, as `__new__`'s `[False]` guarantees — the initial
sentinel state included), pushing any mask or none and then popping restores
the exact prior state, mask array and stack alike; and however many pops are
performed the stack never empties below the sentinel entry. -/
theorem claim_C5_theorem : ∀ (s : MaskState) (newMask : Option MaskVal), s.masks ≠ [] →
    popMask (pushMask newMask s) = .ok s ∧
    (∀ n, ∃ s', popMaskN n s = .ok s' ∧ s'.masks ≠ []) ∧
    initMaskState.masks ≠ [] := by
  intro s newMask h
  refine ⟨?_, fun n => popMaskN_ok n s h, by simp [initMaskState]⟩
  cases s with
  | mk m ms =>
    have hne : ms.isEmpty = false := by
      cases ms with
      | nil => exact absurd rfl h
      | cons a l => rfl
    cases newMask <;>
      simp [pushMask, popMask, List.getLast?_concat, List.dropLast_concat, hne]

/-- Claim C5 (witness): pushing a new mask over the initial sentinel state
and popping restores it exactly, and pops never exhaust the stack. -/
theorem claim_C5_witness :
    popMask (pushMask (some (.array [[true, false]])) initMaskState) = .ok initMaskState ∧
    (∀ n, ∃ s', popMaskN n initMaskState = .ok s' ∧ s'.masks ≠ []) ∧
    initMaskState.masks ≠ [] :=
  claim_C5_theorem initMaskState (some (.array [[true, false]])) (by decide)

/-- Claim C3: cloning a well-formed `DataFile` yields an object whose data,
mask, metadata, setas, column headers and mask stack all read equal to the
original's, and mutating any attribute of the clone leaves every observable
of the original unchanged — the copy shares no mutable cell with the
original. -/
theorem claim_C3_theorem : ∀ (d : DFRefs) (s : Store), d.wf s →
    readDF (deepcopyDF d s).1 (deepcopyDF d s).2 = readDF d s ∧
    ∀ f v, readDF d (mutateDF (deepcopyDF d s).1 f v (deepcopyDF d s).2) = readDF d s := by
  intro d s hwf
  obtain ⟨h1, h2, h3, h4, h5, h6⟩ := hwf
  have hlow : ∀ r, r < s.size → (deepcopyDF d s).2.val r = s.val r := by
    intro r hr
    simp only [deepcopyDF]
    split_ifs <;> first | rfl | omega
  constructor
  · simp only [readDF, deepcopyDF, Prod.mk.injEq]
    refine ⟨?_, ?_, ?_, ?_, ?_, ?_⟩ <;>
      · split_ifs <;> first | rfl | omega
  · intro f v
    have hmut : ∀ r, r < s.size →
        (mutateDF (deepcopyDF d s).1 f v (deepcopyDF d s).2).val r = s.val r := by
      intro r hr
      have hhi : s.size ≤ ((deepcopyDF d s).1).ref f := by
        cases f <;> simp [deepcopyDF, DFRefs.ref]
      simp only [mutateDF, Store.write]
      rw [if_neg (by omega)]
      exact hlow r hr
    simp only [readDF]
    rw [hmut _ h1, hmut _ h2, hmut _ h3, hmut _ h4, hmut _ h5, hmut _ h6]

/-- Claim C3 (witness): the fixture object is well-formed, its clone reads
equal to it, and overwriting the clone's data leaves the original's
observables untouched. -/
theorem claim_C3_witness :
    c3obj.wf c3heap ∧
    readDF (deepcopyDF c3obj c3heap).1 (deepcopyDF c3obj c3heap).2 = readDF c3obj c3heap ∧
    readDF c3obj
        (mutateDF (deepcopyDF c3obj c3heap).1 .dataF (.num [[99]]) (deepcopyDF c3obj c3heap).2) =
      readDF c3obj c3heap :=
  ⟨by decide, (claim_C3_theorem c3obj c3heap (by decide)).1,
   (claim_C3_theorem c3obj c3heap (by decide)).2 .dataF (.num [[99]])⟩

/-- Claim C6 (code bug, evaluated at the failing input): appending a single
2×2 page to a fresh `ImageStack` leaves one name and one recorded size but
*two* buffer pages — `__inserter__` resizes the buffer to `len(_names)` pages
and then `np.insert`s one more — so `len(names) == pageCount == len(sizes)`
fails; and deleting that page by name raises `IndexError` out of
`np.delete(self._sizes, ix, axis=0)` after names, metadata and the buffer
page were already removed, leaving 0 names against 1 recorded size. -/
theorem claim_C6_bug :
    (setterNew emptyImgStack "img" c6img).names.length = 1 ∧
    (setterNew emptyImgStack "img" c6img).sizes.length = 1 ∧
    (setterNew emptyImgStack "img" c6img).stack.pages = 2 ∧
    raisedIndexError (deleterName (setterNew emptyImgStack "img" c6img) "img") = true ∧
    (stackStateOf (deleterName (setterNew emptyImgStack "img" c6img) "img")).names.length = 0 ∧
    (stackStateOf (deleterName (setterNew emptyImgStack "img" c6img) "img")).sizes.length = 1 :=
  ⟨rfl, rfl, rfl, rfl, rfl, rfl⟩

/-- Claim C7 (code bug, evaluated at the failing input): `del_column` with
the boolean list `[True, False]` on columns `a`, `b` keeps column `b` (flag
`False`) and deletes column `a` (flag `True`) — the negation `~np.array(col)`
makes the code delete where the flag is `True`, the opposite of its own
docstring and of the claim. -/
theorem claim_C7_bug :
    delColumnBools c7df [true, false] = ⟨[[20]], ['y'], ["b"]⟩ ∧
    delColumnBoolsDoc c7df [true, false] = ⟨[[10]], ['x'], ["a"]⟩ ∧
    delColumnBools c7df [true, false] ≠ delColumnBoolsDoc c7df [true, false] :=
  ⟨by decide, by decide, by decide⟩

/-- Claim C8: a `DataFile` built from the dictionary with keys `x ↦ [1,2,3]`
and `y ↦ [4,5,6]` has a data matrix of shape `(3, 2)` whose columns are the
dictionary's values and whose headers are its keys, and with `setas = "xy"`
the derived `xcol` is `0` and `ycol` is `[1]`. -/
theorem claim_C8_theorem :
    (initFromDict [("x", [1, 2, 3]), ("y", [4, 5, 6])]).shape = (3, 2) ∧
    (initFromDict [("x", [1, 2, 3]), ("y", [4, 5, 6])]).data = [[1, 4], [2, 5], [3, 6]] ∧
    (initFromDict [("x", [1, 2, 3]), ("y", [4, 5, 6])]).column_headers = ["x", "y"] ∧
    xcolOf ['x', 'y'] = some 0 ∧ ycolOf ['x', 'y'] = [1] := by
  refine ⟨by decide, by decide, by decide, by decide, by decide⟩

/-- Claim C9 (counterexample): two stacks of differing numeric kinds,
neither floating-point (unsigned 8-bit against signed 16-bit), make the
ratio operator fail with `ValueError` — not the `TypeError` the claim
states. -/
theorem claim_C9_counterexample :
    floordivStacks c9u8 c9i16 = .error .valueError ∧
    PyExc.valueError ≠ PyExc.typeError :=
  ⟨rfl, by decide⟩

/-- Helper: dividing scaled numerator and denominator by the same non-zero
constant leaves the ratio unchanged (in ℚ, where division by zero is zero on
both sides). -/
theorem ratioScaleCancel (x y M : ℚ) (hM : M ≠ 0) :
    (x / M - y / M) / (x / M + y / M) = (x - y) / (x + y) := by
  rw [div_sub_div_same, div_add_div_same]
  rcases eq_or_ne (x + y) 0 with h | h
  · rw [h, zero_div, div_zero, div_zero]
  · field_simp

/-- Claim C9 (amended): for stacks whose dtypes are *equal* (and whose
normalisation constant is non-zero, true of every numpy dtype) the operator
produces a new stack whose buffer is `(A - B) / (A + B)` elementwise — via
float conversion, which cancels, when the kind is integral; whenever the
dtypes differ, floating-point or not, it fails with `ValueError` (not
`TypeError`), leaving both operands unmodified. -/
theorem claim_C9_amended : ∀ a b : StackBuf, a.dtype.maxVal ≠ 0 →
    (a.dtype = b.dtype →
      ∃ r, floordivStacks a b = .ok r ∧
        ∀ i j k, r.buf.val i j k =
          (a.buf.val i j k - b.buf.val i j k) / (a.buf.val i j k + b.buf.val i j k)) ∧
    (a.dtype ≠ b.dtype → floordivStacks a b = .error .valueError) := by
  intro a b hM
  constructor
  · intro hd
    have hne : ¬ (a.dtype ≠ b.dtype) := fun hc => hc hd
    by_cases hk : a.dtype.kind = NumKind.f
    · simp only [floordivStacks, if_neg hne, if_neg (not_not_intro hk)]
      exact ⟨_, rfl, fun i j k => rfl⟩
    · simp only [floordivStacks, if_neg hne, if_pos hk]
      refine ⟨_, rfl, fun i j k => ?_⟩
      have hbk : ¬ b.dtype.kind = NumKind.f := by rw [← hd]; exact hk
      have hca : (convertFloat a).buf.val i j k = a.buf.val i j k / a.dtype.maxVal := by
        simp [convertFloat, hk]
      have hcb : (convertFloat b).buf.val i j k = b.buf.val i j k / a.dtype.maxVal := by
        rw [hd]
        simp [convertFloat, hbk]
      show ((convertFloat a).buf.val i j k - (convertFloat b).buf.val i j k) /
          ((convertFloat a).buf.val i j k + (convertFloat b).buf.val i j k) = _
      rw [hca, hcb]
      exact ratioScaleCancel _ _ _ hM
  · intro hne
    simp [floordivStacks, hne]

/-- Claim C9 (witness): two float stacks of one dtype produce the elementwise
ratio; the unsigned-8/signed-16 pair produces `ValueError`. -/
theorem claim_C9_witness :
    (∃ r, floordivStacks c9fA c9fB = .ok r ∧
      ∀ i j k, r.buf.val i j k =
        (c9fA.buf.val i j k - c9fB.buf.val i j k) /
          (c9fA.buf.val i j k + c9fB.buf.val i j k)) ∧
    floordivStacks c9u8 c9i16 = .error .valueError :=
  ⟨(claim_C9_amended c9fA c9fB (by norm_num [c9fA, Dtype.maxVal])).1 rfl,
   (claim_C9_amended c9u8 c9i16 (by norm_num [c9u8, Dtype.maxVal])).2 (by decide)⟩

/-- Helper: the index Python `str.rfind` reports is in range and holds the
sought character. -/
theorem rfindIdx_spec (c : Char) : ∀ (l : List Char) (i : Nat), rfindIdx c l = some i →
    i < l.length ∧ l.getD i ' ' = c := by
  intro l
  induction l with
  | nil => intro i h; exact absurd h (by simp [rfindIdx])
  | cons x xs ih =>
    intro i h
    unfold rfindIdx at h
    cases hx : rfindIdx c xs with
    | some j =>
      rw [hx] at h
      obtain rfl : j + 1 = i := Option.some.injEq .. ▸ congrArg (Option.getD · 0) h
      obtain ⟨hj, hg⟩ := ih j hx
      exact ⟨by simpa using hj, by simpa using hg⟩
    | none =>
      rw [hx] at h
      by_cases hxc : x = c
      · rw [if_pos hxc] at h
        obtain rfl : 0 = i := Option.some.injEq .. ▸ congrArg (Option.getD · 0) h
        exact ⟨by simp, by simpa using hxc⟩
      · rw [if_neg hxc] at h
        exact absurd h (by simp)

/-- Helper: a non-empty extension produced by `os.path.splitext` starts with
the dot it was split at. -/
theorem pySplitExt_ext_dot : ∀ p : List Char, (pySplitExt p).2 ≠ [] →
    ∃ t, (pySplitExt p).2 = '.' :: t := by
  intro p hne
  cases hd : rfindIdx '.' p with
  | none =>
    simp only [pySplitExt, hd] at hne
    exact absurd rfl hne
  | some d =>
    simp only [pySplitExt, hd] at hne ⊢
    split_ifs at hne ⊢ with hcond
    · obtain ⟨hlt, hget⟩ := rfindIdx_spec '.' p d hd
      show ∃ t, p.drop d = '.' :: t
      refine ⟨p.drop (d + 1), ?_⟩
      rw [List.drop_eq_getElem_cons hlt]
      have hpd : p[d] = '.' := by
        rw [← List.getD_eq_getElem p ' ' hlt]
        exact hget
      rw [hpd]
    · exact absurd rfl hne

/-- Claim C10: for every filename whose `splitext` extension is non-empty —
even a recognised one such as `.tdi` — `DataFile.save`'s normalisation
replaces the extension with `txt`, because the membership test joins `"*."`
to an extension that still carries its leading dot and so never matches any
pattern. -/
theorem claim_C10_theorem : ∀ p : List Char, (pySplitExt p).2 ≠ [] →
    saveFilename p = (pySplitExt p).1 ++ '.' :: ['t', 'x', 't'] := by
  intro p hne
  obtain ⟨t, ht⟩ := pySplitExt_ext_dot p hne
  simp only [saveFilename]
  rw [ht]
  have hmem : ('*' :: '.' :: '.' :: t) ∉ dfPatterns := by simp [dfPatterns]
  rw [if_neg hmem]

/-- Claim C10 (witness): saving under `foo.tdi` — `.tdi` being one of the
recognised patterns — still writes `foo.txt`. -/
theorem claim_C10_witness :
    saveFilename ("foo.tdi".data) =
      (pySplitExt ("foo.tdi".data)).1 ++ '.' :: ['t', 'x', 't'] :=
  claim_C10_theorem ("foo.tdi".data) (by decide)

end Stoner
